import Mathlib

/-!
Verification of `src/isochrome.py`, a Streamlit application that samples
points along the boundary of a KML region (or takes one user-entered
coordinate), requests isochrones from the OpenRouteService client for a
list of travel profiles, and aggregates per-profile area totals.

The Python program is shallowly embedded below.  Outcomes of the external
service are modelled by oracles: a function from (profile, point index,
attempt index) to the result of one attempt of the remote call.  Machine
reals (areas, square metres) are modelled by `ℚ`; `time.sleep` calls are
modelled by counters recording how often each delay is taken.
-/

set_option autoImplicit false

/-- Result of one attempt of the remote isochrone call, as distinguished by
`retry_request`: a successful feature list, the rate-limit condition
(`openrouteservice.exceptions.ApiError`, the only exception class caught by
the retry loop), or any other error (not caught by the retry loop). -/
inductive AttemptResult (α : Type) where
  | ok (value : α)
  | rateLimited
  | otherError (msg : String)
  deriving DecidableEq

/-- Result of `IsochroneAnalyzer.retry_request`: either the value returned by
the wrapped call together with the number of `time.sleep(wait)` calls made
before it, or the final `RuntimeError` after the retry budget is exhausted
(recording attempts made and sleeps taken), or an error other than the
rate-limit condition propagating out of the loop (recording the attempts made
and sleeps taken before it was raised). -/
inductive RetryResult (α : Type) where
  | ok (value : α) (sleeps : ℕ)
  | exhausted (attempts : ℕ) (sleeps : ℕ)
  | propagated (msg : String) (attempts : ℕ) (sleeps : ℕ)
  deriving DecidableEq

/-- The loop `for attempt in range(max_retries)` of
`IsochroneAnalyzer.retry_request`, with the remaining iteration budget as
fuel and the current attempt index and sleep count threaded through.  Each
`ApiError` attempt warns and sleeps `wait` seconds (also on the last
attempt) before the next iteration; any other exception propagates at once;
exhausting the budget raises `RuntimeError`. -/
def retry_go {α : Type} (call : ℕ → AttemptResult α) : ℕ → ℕ → ℕ → RetryResult α
  | 0, attempt, sleeps => .exhausted attempt sleeps
  | fuel + 1, attempt, sleeps =>
    match call attempt with
    | .ok a => .ok a sleeps
    | .rateLimited => retry_go call fuel (attempt + 1) (sleeps + 1)
    | .otherError e => .propagated e (attempt + 1) sleeps

/-- The method `IsochroneAnalyzer.retry_request(func, max_retries=3, wait=5)`:
run `call` up to `max_retries` times, sleeping after each rate-limited
attempt. -/
def retry_request {α : Type} (call : ℕ → AttemptResult α) (max_retries : ℕ) :
    RetryResult α :=
  retry_go call max_retries 0 0

theorem retry_go_ok {α : Type} (call : ℕ → AttemptResult α) (a : α) :
    ∀ (K fuel attempt sleeps : ℕ), K < fuel →
      (∀ i, i < K → call (attempt + i) = .rateLimited) →
      call (attempt + K) = .ok a →
      retry_go call fuel attempt sleeps = .ok a (sleeps + K) := by
  intro K
  induction K with
  | zero =>
    intro fuel attempt sleeps hfuel _ hok
    match fuel, hfuel with
    | fuel + 1, _ =>
      rw [Nat.add_zero] at hok
      rw [retry_go, hok]
      simp
  | succ K ih =>
    intro fuel attempt sleeps hfuel hrl hok
    match fuel, hfuel with
    | fuel + 1, hfuel =>
      have h0 : call attempt = .rateLimited := by
        simpa using hrl 0 (Nat.succ_pos K)
      rw [retry_go, h0]
      have := ih fuel (attempt + 1) (sleeps + 1) (by omega)
        (fun i hi => by
          have := hrl (i + 1) (by omega)
          simpa [Nat.add_assoc, Nat.add_comm 1 i] using this)
        (by
          have : attempt + (K + 1) = attempt + 1 + K := by omega
          rw [this] at hok
          exact hok)
      rw [this]
      have : sleeps + 1 + K = sleeps + (K + 1) := by omega
      rw [this]

theorem retry_go_exhaust {α : Type} (call : ℕ → AttemptResult α) :
    ∀ (fuel attempt sleeps : ℕ),
      (∀ i, i < fuel → call (attempt + i) = .rateLimited) →
      retry_go call fuel attempt sleeps = .exhausted (attempt + fuel) (sleeps + fuel) := by
  intro fuel
  induction fuel with
  | zero => intro attempt sleeps _; simp [retry_go]
  | succ fuel ih =>
    intro attempt sleeps hrl
    have h0 : call attempt = .rateLimited := by simpa using hrl 0 (Nat.succ_pos fuel)
    rw [retry_go, h0]
    have := ih (attempt + 1) (sleeps + 1)
      (fun i hi => by
        have := hrl (i + 1) (by omega)
        simpa [Nat.add_assoc, Nat.add_comm 1 i] using this)
    rw [this]
    have h1 : attempt + 1 + fuel = attempt + (fuel + 1) := by omega
    have h2 : sleeps + 1 + fuel = sleeps + (fuel + 1) := by omega
    rw [h1, h2]

theorem retry_go_propagate {α : Type} (call : ℕ → AttemptResult α) (e : String) :
    ∀ (j fuel attempt sleeps : ℕ), j < fuel →
      (∀ i, i < j → call (attempt + i) = .rateLimited) →
      call (attempt + j) = .otherError e →
      retry_go call fuel attempt sleeps = .propagated e (attempt + j + 1) (sleeps + j) := by
  intro j
  induction j with
  | zero =>
    intro fuel attempt sleeps hfuel _ herr
    match fuel, hfuel with
    | fuel + 1, _ =>
      rw [Nat.add_zero] at herr
      rw [retry_go, herr]
      simp
  | succ j ih =>
    intro fuel attempt sleeps hfuel hrl herr
    match fuel, hfuel with
    | fuel + 1, hfuel =>
      have h0 : call attempt = .rateLimited := by simpa using hrl 0 (Nat.succ_pos j)
      rw [retry_go, h0]
      have := ih fuel (attempt + 1) (sleeps + 1) (by omega)
        (fun i hi => by
          have := hrl (i + 1) (by omega)
          simpa [Nat.add_assoc, Nat.add_comm 1 i] using this)
        (by
          have : attempt + (j + 1) = attempt + 1 + j := by omega
          rw [this] at herr
          exact herr)
      rw [this]
      have h1 : attempt + 1 + j + 1 = attempt + (j + 1) + 1 := by omega
      have h2 : sleeps + 1 + j = sleeps + (j + 1) := by omega
      rw [h1, h2]

/-- C4: Retry Executor contract.  If the call is rate-limited on attempts
`0 … K-1` with `K < max_retries` and succeeds on attempt `K`, then
`retry_request` returns the successful value having slept exactly `K` times;
if every one of the `max_retries` attempts is rate-limited, `retry_request`
makes exactly `max_retries` attempts and then fails with the
exhausted-retries `RuntimeError`. -/
theorem c4_retry_executor_contract {α : Type} (call : ℕ → AttemptResult α)
    (max_retries K : ℕ) (a : α) :
    (K < max_retries → (∀ i, i < K → call i = .rateLimited) → call K = .ok a →
      retry_request call max_retries = .ok a K) ∧
    ((∀ i, i < max_retries → call i = .rateLimited) →
      retry_request call max_retries = .exhausted max_retries max_retries) := by
  constructor
  · intro hK hrl hok
    have := retry_go_ok call a K max_retries 0 0 hK
      (fun i hi => by simpa using hrl i hi) (by simpa using hok)
    simpa using this
  · intro hrl
    have := retry_go_exhaust call max_retries 0 0 (fun i hi => by simpa using hrl i hi)
    simpa using this

/-- Witness for C4 at a concrete call: rate-limited twice then succeeding
with value 7 under a budget of 3 attempts, and rate-limited always. -/
theorem c4_retry_executor_contract_witness :
    retry_request (fun i => if i < 2 then AttemptResult.rateLimited else .ok (7 : ℕ)) 3
        = .ok 7 2 ∧
    retry_request (fun _ => (AttemptResult.rateLimited : AttemptResult ℕ)) 3
        = .exhausted 3 3 :=
  ⟨(c4_retry_executor_contract (fun i => if i < 2 then AttemptResult.rateLimited else .ok (7 : ℕ))
        3 2 7).1 (by decide) (by decide) (by decide),
   (c4_retry_executor_contract (fun _ => (AttemptResult.rateLimited : AttemptResult ℕ))
        3 0 7).2 (fun i _ => rfl)⟩

/-- C5: any failure other than the rate-limit condition is propagated
immediately: if attempts `0 … j-1` are rate-limited and attempt `j` raises a
non-rate-limit error, the loop made exactly `j + 1` attempts (none after the
error) and slept exactly `j` times (no sleep for the non-rate-limit error
itself); only rate-limited attempts trigger the wait-and-retry behaviour. -/
theorem c5_non_rate_limit_propagates {α : Type} (call : ℕ → AttemptResult α)
    (max_retries j : ℕ) (e : String)
    (hj : j < max_retries)
    (hrl : ∀ i, i < j → call i = .rateLimited)
    (herr : call j = .otherError e) :
    retry_request call max_retries = .propagated e (j + 1) j := by
  have := retry_go_propagate call e j max_retries 0 0 hj
    (fun i hi => by simpa using hrl i hi) (by simpa using herr)
  simpa using this

/-- Witness for C5 at a concrete call: a non-rate-limit error on the very
first attempt propagates with one attempt made and zero sleeps. -/
theorem c5_non_rate_limit_propagates_witness :
    retry_request (fun _ => (AttemptResult.otherError "boom" : AttemptResult ℕ)) 3
      = .propagated "boom" 1 0 :=
  c5_non_rate_limit_propagates (fun _ => (AttemptResult.otherError "boom" : AttemptResult ℕ))
    3 0 "boom" (by decide) (fun i hi => absurd hi (Nat.not_lt_zero i)) rfl

/-- A longitude–latitude pair, as produced by
`[[point[0], point[1]] for point in boundary_points]`. -/
abbrev Point : Type := ℚ × ℚ

/-- One row geometry of the GeoDataFrame read from the KML file.  `load_kml`
distinguishes `"Polygon"` rows (contributing their exterior-ring coordinates)
and `"MultiPolygon"` rows (contributing the exterior-ring coordinates of each
part); any other geometry type contributes nothing. -/
inductive Geometry where
  | polygon (exterior : List Point)
  | multiPolygon (parts : List (List Point))
  | other
  deriving DecidableEq

/-- Exterior-ring coordinates contributed by one geometry row, in encounter
order, following the `for geom in gdf_kml.geometry` loop body of `load_kml`. -/
def geometry_exterior_coords : Geometry → List Point
  | .polygon exterior => exterior
  | .multiPolygon parts => parts.flatMap (fun ring => ring)
  | .other => []

/-- The flat `boundary_points` sequence of `load_kml`: every exterior-ring
vertex of every polygon part of every row, in encounter order. -/
def boundary_points (geoms : List Geometry) : List Point :=
  geoms.flatMap geometry_exterior_coords

/-- Python extended slicing `lst[::n]` for a positive step `n`, by a
countdown: an element is retained when the countdown is 0, which then resets
to `n - 1`. -/
def every_nth_aux {α : Type} (n : ℕ) : List α → ℕ → List α
  | [], _ => []
  | a :: rest, 0 => a :: every_nth_aux n rest (n - 1)
  | _ :: rest, k + 1 => every_nth_aux n rest k

/-- Python `lst[::n]`: the elements of `lst` at indices `0, n, 2n, …`. -/
def every_nth {α : Type} (l : List α) (n : ℕ) : List α := every_nth_aux n l 0

theorem every_nth_aux_length {α : Type} (n : ℕ) (hn : 1 ≤ n) :
    ∀ (l : List α) (k : ℕ), k < n →
      (every_nth_aux n l k).length = (l.length + (n - 1 - k)) / n := by
  intro l
  induction l with
  | nil =>
    intro k hk
    rw [every_nth_aux]
    simp only [List.length_nil, Nat.zero_add]
    exact (Nat.div_eq_of_lt (by omega)).symm
  | cons a rest ih =>
    intro k hk
    cases k with
    | zero =>
      rw [every_nth_aux]
      simp only [List.length_cons]
      rw [ih (n - 1) (by omega)]
      have h1 : n - 1 - (n - 1) = 0 := by omega
      have h2 : rest.length + 1 + (n - 1 - 0) = rest.length + n := by omega
      rw [h1, h2, Nat.add_div_right _ (by omega)]
      simp
    | succ k =>
      rw [every_nth_aux]
      simp only [List.length_cons]
      rw [ih k (by omega)]
      congr 1
      omega

theorem every_nth_aux_getElem {α : Type} (n : ℕ) (hn : 1 ≤ n) :
    ∀ (l : List α) (k i : ℕ), k < n →
      (every_nth_aux n l k)[i]? = l[k + i * n]? := by
  intro l
  induction l with
  | nil => intro k i _; rw [every_nth_aux]; simp
  | cons a rest ih =>
    intro k i hk
    cases k with
    | zero =>
      cases i with
      | zero => rw [every_nth_aux]; simp
      | succ i =>
        rw [every_nth_aux, List.getElem?_cons_succ, ih (n - 1) i (by omega)]
        have h1 : (0 : ℕ) + (i + 1) * n = n - 1 + i * n + 1 := by
          rw [Nat.succ_mul]; omega
        rw [h1, List.getElem?_cons_succ]
    | succ k =>
      rw [every_nth_aux, ih k i (by omega)]
      have h1 : k + 1 + i * n = k + i * n + 1 := by omega
      rw [h1, List.getElem?_cons_succ]

/-- The method `IsochroneAnalyzer.load_kml`: if the GeoDataFrame read from the KML file
is empty, report `st.error("File KML kosong atau tidak valid.")` and return
`False` (modelled as the error case); otherwise collect every exterior-ring
vertex into `boundary_points` and set `koordinat_list` to the slice
`[::sampling_interval]` of it. -/
def load_kml (geoms : List Geometry) (sampling_interval : ℕ) :
    Except String (List Point) :=
  if geoms = [] then .error "File KML kosong atau tidak valid."
  else .ok (every_nth (boundary_points geoms) sampling_interval)

/-- C3: for a boundary geometry with `V` total exterior-ring vertices across
all polygon parts and a sampling interval `n ≥ 1`, `load_kml` yields exactly
`⌈V / n⌉ = (V + n - 1) / n` sample points, and the `i`-th sample point is the
vertex at position `i * n` of the flat vertex sequence — the original vertex
encounter order. -/
theorem c3_boundary_extractor_count_and_order
    (geoms : List Geometry) (n : ℕ) (hn : 1 ≤ n) (hne : geoms ≠ []) :
    load_kml geoms n = .ok (every_nth (boundary_points geoms) n) ∧
    (every_nth (boundary_points geoms) n).length
        = ((boundary_points geoms).length + n - 1) / n ∧
    ∀ i : ℕ, (every_nth (boundary_points geoms) n)[i]? = (boundary_points geoms)[i * n]? := by
  refine ⟨by simp [load_kml, hne], ?_, ?_⟩
  · have h := every_nth_aux_length n hn (boundary_points geoms) 0 (by omega)
    rw [every_nth, h]
    congr 1
    omega
  · intro i
    have h := every_nth_aux_getElem n hn (boundary_points geoms) 0 i (by omega)
    rw [every_nth, h]
    congr 1
    omega

/-- Witness for C3: a single square polygon ring with 5 vertices (the closing
vertex repeated, as in shapely exterior coordinates) sampled at interval 2
yields ⌈5/2⌉ = 3 points, in vertex order. -/
theorem c3_boundary_extractor_count_and_order_witness :
    load_kml [Geometry.polygon [((0 : ℚ), (0 : ℚ)), (1, 0), (1, 1), (0, 1), (0, 0)]] 2
        = .ok (every_nth
            (boundary_points [Geometry.polygon [((0 : ℚ), (0 : ℚ)), (1, 0), (1, 1), (0, 1), (0, 0)]]) 2) ∧
    (every_nth
        (boundary_points [Geometry.polygon [((0 : ℚ), (0 : ℚ)), (1, 0), (1, 1), (0, 1), (0, 0)]]) 2).length
        = ((boundary_points [Geometry.polygon [((0 : ℚ), (0 : ℚ)), (1, 0), (1, 1), (0, 1), (0, 0)]]).length
            + 2 - 1) / 2 ∧
    ∀ i : ℕ,
      (every_nth
          (boundary_points [Geometry.polygon [((0 : ℚ), (0 : ℚ)), (1, 0), (1, 1), (0, 1), (0, 0)]]) 2)[i]?
        = (boundary_points [Geometry.polygon [((0 : ℚ), (0 : ℚ)), (1, 0), (1, 1), (0, 1), (0, 0)]])[i * 2]? :=
  c3_boundary_extractor_count_and_order
    [Geometry.polygon [((0 : ℚ), (0 : ℚ)), (1, 0), (1, 1), (0, 1), (0, 0)]] 2
    (by decide) (by simp)

/-- Floor of a rational, computed from numerator and denominator so that it
evaluates by kernel reduction. -/
def rat_floor (q : ℚ) : ℤ := q.num.fdiv q.den

/-- Round a rational to the nearest integer, ties to even — the behaviour of
the behaviour of the Python built-in `round` on exact values. -/
def round_half_even (x : ℚ) : ℤ :=
  let f := rat_floor x
  let r := x - (f : ℚ)
  if r < 1 / 2 then f
  else if 1 / 2 < r then f + 1
  else if f % 2 = 0 then f else f + 1

/-- Python `round(q, 2)`: round to two decimal places (idealised over exact
rationals). -/
def round2 (q : ℚ) : ℚ := (round_half_even (q * 100) : ℚ) / 100

/-- The lookup `COLOR_MAP.get(profile, "#666666")`: the fill colour of a profile. -/
def COLOR_MAP_get (profile : String) : String :=
  if profile = "driving-traffic" then "#377eb8"
  else if profile = "driving-car" then "#1a9641"
  else if profile = "cycling-regular" then "#fdae61"
  else if profile = "foot-walking" then "#2b83ba"
  else if profile = "driving-hgv" then "#a6d96a"
  else if profile = "cycling-electric" then "#d7191c"
  else if profile = "foot-hiking" then "#984ea3"
  else if profile = "wheelchair" then "#ff7f00"
  else "#666666"

/-- One feature of the returned isochrone feature collection: its
`properties["value"]` threshold (seconds for time ranges, metres for distance
ranges) and its optional `properties["area"]` in square metres. -/
structure Feature where
  value : ℕ
  area : Option ℚ
  deriving DecidableEq

/-- The read `feature["properties"].get("area", 0)`: a missing area counts as 0. -/
def feature_area (f : Feature) : ℚ := f.area.getD 0

/-- The outcome of a single point request as seen by the per-point
`except Exception` handler in `generate_isochrones`: either the feature list
returned by `retry_request`, or failure (covering both the `RuntimeError`
raised on retry exhaustion and any other exception propagated by
`retry_request`). -/
inductive ReqOutcome where
  | success (features : List Feature)
  | failure
  deriving DecidableEq

/-- Run `self.retry_request(lambda: self.client.isochrones(...))` with its
default budget of 3 attempts and classify the result for the surrounding
`try`/`except`. -/
def point_outcome (call : ℕ → AttemptResult (List Feature)) : ReqOutcome :=
  match retry_request call 3 with
  | .ok fs _ => .success fs
  | .exhausted _ _ => .failure
  | .propagated _ _ _ => .failure

/-- Service behaviour for a whole run: for each profile, point index and
attempt index, the result of that attempt of the remote call. -/
abbrev Oracle : Type := String → ℕ → ℕ → AttemptResult (List Feature)

/-- One `folium.GeoJson` layer added to the map for one feature: the profile
and its fill colour, the `waktu` label value `feature["properties"]["value"] // 60`,
and the tooltip area figures `area_m2` and `round(area_m2/1e6, 2)`. -/
structure FeatureRecord where
  profile : String
  fill_color : String
  waktu : ℕ
  area_m2 : ℚ
  area_km2_label : ℚ
  deriving DecidableEq

/-- The render record built for one feature in the inner loop of
`generate_isochrones`. -/
def mk_record (profile warna_fill : String) (f : Feature) : FeatureRecord :=
  { profile := profile, fill_color := warna_fill, waktu := f.value / 60,
    area_m2 := feature_area f, area_km2_label := round2 (feature_area f / 1000000) }

/-- The inner loop `for feature in isochrones["features"]`: accumulate
`total_area_m2 += area_m2` and add one `folium.GeoJson` layer per feature. -/
def process_features (profile warna_fill : String) :
    List Feature → ℚ → List FeatureRecord → ℚ × List FeatureRecord
  | [], total, rendered => (total, rendered)
  | f :: rest, total, rendered =>
      process_features profile warna_fill rest (total + feature_area f)
        (rendered ++ [mk_record profile warna_fill f])

/-- Mutable state of the iteration for one profile of `generate_isochrones`:
the running `total_area_m2`, the layers rendered so far, the point indices
for which `st.error("Gagal untuk titik ke-…")` was shown, the number of
`time.sleep(2.5)` pacing calls taken, and the number of requests issued
through `retry_request`. -/
structure ProfileAcc where
  total_area_m2 : ℚ
  rendered : List FeatureRecord
  errors : List ℕ
  sleeps : ℕ
  requests : ℕ
  deriving DecidableEq

/-- The body of `for idx, koordinat in enumerate(self.koordinat_list)`: on a
successful request, fold the features in and take the `time.sleep(2.5)` at
the end of the `try` block; on any exception, show the per-point error and
`continue` — the pacing sleep inside the `try` is skipped. -/
def process_point (profile warna_fill : String) (idx : ℕ) (outcome : ReqOutcome)
    (acc : ProfileAcc) : ProfileAcc :=
  match outcome with
  | .success fs =>
      let res := process_features profile warna_fill fs acc.total_area_m2 acc.rendered
      { acc with total_area_m2 := res.1, rendered := res.2,
                 sleeps := acc.sleeps + 1, requests := acc.requests + 1 }
  | .failure =>
      { acc with errors := acc.errors ++ [idx], requests := acc.requests + 1 }

/-- The per-profile point loop of `generate_isochrones`, over the list of
point indices (the coordinates themselves only feed the request; outcomes are
indexed by position through the oracle). -/
def process_points (call : ℕ → ℕ → AttemptResult (List Feature))
    (profile warna_fill : String) : List ℕ → ProfileAcc → ProfileAcc
  | [], acc => acc
  | idx :: rest, acc =>
      process_points call profile warna_fill rest
        (process_point profile warna_fill idx (point_outcome (call idx)) acc)

/-- One entry of `self.area_summary`:
`{"profile": profile, "total_area_km2": round(total_area_m2 / 1e6, 2)}`. -/
structure Summary where
  profile : String
  total_area_km2 : ℚ
  deriving DecidableEq

/-- Observable state of a whole `generate_isochrones` run: the layers on the
map, `self.area_summary`, the per-point failures shown (tagged with the
profile being iterated when they were shown), the pacing sleeps taken, and
the requests dispatched. -/
structure RunState where
  rendered : List FeatureRecord
  area_summary : List Summary
  errors : List (String × ℕ)
  sleeps : ℕ
  requests : ℕ
  deriving DecidableEq

/-- The outer `for profile in self.profile_list` loop of
`generate_isochrones`: per profile, reset `total_area_m2 = 0`, run every
point, then append the summary entry of the profile. -/
def generate_isochrones_go (oracle : Oracle) (npts : ℕ) :
    List String → RunState → RunState
  | [], st => st
  | profile :: rest, st =>
      let acc := process_points (oracle profile) profile (COLOR_MAP_get profile)
        (List.range npts) ⟨0, st.rendered, [], 0, 0⟩
      generate_isochrones_go oracle npts rest
        { rendered := acc.rendered,
          area_summary := st.area_summary ++ [⟨profile, round2 (acc.total_area_m2 / 1000000)⟩],
          errors := st.errors ++ acc.errors.map (fun idx => (profile, idx)),
          sleeps := st.sleeps + acc.sleeps,
          requests := st.requests + acc.requests }

/-- The method `IsochroneAnalyzer.generate_isochrones`, for a given service oracle,
profile list and `koordinat_list`. -/
def generate_isochrones (oracle : Oracle) (profiles : List String)
    (points : List Point) : RunState :=
  generate_isochrones_go oracle points.length profiles ⟨[], [], [], 0, 0⟩

/-- The method `IsochroneAnalyzer.display_summary`: one markdown line
`- **{profile}**: {total_area_km2} km²` per `area_summary` item, in order. -/
def display_summary (st : RunState) : List (String × ℚ) :=
  st.area_summary.map (fun item => (item.profile, item.total_area_km2))

/-- Whether an outcome is a success. -/
def is_succ : ReqOutcome → Bool
  | .success _ => true
  | .failure => false

/-- Whether an outcome is a failure. -/
def is_fail : ReqOutcome → Bool
  | .success _ => false
  | .failure => true

/-- The layers rendered for one (profile, point) pair: one record per
returned feature on success, none on failure. -/
def point_records (call : ℕ → ℕ → AttemptResult (List Feature))
    (profile warna_fill : String) (idx : ℕ) : List FeatureRecord :=
  match point_outcome (call idx) with
  | .success fs => fs.map (mk_record profile warna_fill)
  | .failure => []

/-- The area contributed to the total of a profile by one point: the sum of the areas of the returned features on success, 0 on failure. -/
def point_area (call : ℕ → ℕ → AttemptResult (List Feature)) (idx : ℕ) : ℚ :=
  match point_outcome (call idx) with
  | .success fs => (fs.map feature_area).sum
  | .failure => 0

/-- The plain sum of the areas of all successfully returned features for one
profile across all sample points. -/
def success_area_sum (oracle : Oracle) (profile : String) (npts : ℕ) : ℚ :=
  ((List.range npts).map (point_area (oracle profile))).sum

theorem process_features_eq (profile warna_fill : String) :
    ∀ (fs : List Feature) (total : ℚ) (rendered : List FeatureRecord),
      process_features profile warna_fill fs total rendered
        = (total + (fs.map feature_area).sum,
           rendered ++ fs.map (mk_record profile warna_fill)) := by
  intro fs
  induction fs with
  | nil => intro t r; simp [process_features]
  | cons f rest ih =>
    intro t r
    rw [process_features, ih]
    simp [add_assoc]

theorem process_points_eq (call : ℕ → ℕ → AttemptResult (List Feature))
    (profile warna_fill : String) :
    ∀ (l : List ℕ) (acc : ProfileAcc),
      process_points call profile warna_fill l acc =
        { total_area_m2 := acc.total_area_m2 + (l.map (point_area call)).sum,
          rendered := acc.rendered ++ l.flatMap (point_records call profile warna_fill),
          errors := acc.errors ++ l.filter (fun idx => is_fail (point_outcome (call idx))),
          sleeps := acc.sleeps
            + (l.filter (fun idx => is_succ (point_outcome (call idx)))).length,
          requests := acc.requests + l.length } := by
  intro l
  induction l with
  | nil => intro acc; simp [process_points]
  | cons idx rest ih =>
    intro acc
    rw [process_points, ih]
    cases h : point_outcome (call idx) with
    | success fs =>
      simp [process_point, h, process_features_eq, point_area, point_records,
            is_fail, is_succ, List.filter_cons, add_assoc]
      constructor
      · omega
      · omega
    | failure =>
      simp [process_point, h, point_area, point_records, is_fail, is_succ,
            List.filter_cons, add_assoc]
      omega

theorem generate_isochrones_go_eq (oracle : Oracle) (npts : ℕ) :
    ∀ (profiles : List String) (st : RunState),
      generate_isochrones_go oracle npts profiles st =
        { rendered := st.rendered ++ profiles.flatMap (fun p =>
            (List.range npts).flatMap (point_records (oracle p) p (COLOR_MAP_get p))),
          area_summary := st.area_summary ++ profiles.map (fun p =>
            ⟨p, round2 (success_area_sum oracle p npts / 1000000)⟩),
          errors := st.errors ++ profiles.flatMap (fun p =>
            ((List.range npts).filter (fun idx => is_fail (point_outcome (oracle p idx)))).map
              (fun idx => (p, idx))),
          sleeps := st.sleeps + (profiles.map (fun p =>
            ((List.range npts).filter (fun idx => is_succ (point_outcome (oracle p idx)))).length)).sum,
          requests := st.requests + profiles.length * npts } := by
  intro profiles
  induction profiles with
  | nil => intro st; simp [generate_isochrones_go]
  | cons p rest ih =>
    intro st
    rw [generate_isochrones_go]
    rw [process_points_eq, ih]
    simp [success_area_sum, Nat.succ_mul, List.length_range, add_assoc]
    omega

theorem generate_isochrones_eq (oracle : Oracle) (profiles : List String)
    (points : List Point) :
    generate_isochrones oracle profiles points =
      { rendered := profiles.flatMap (fun p =>
          (List.range points.length).flatMap (point_records (oracle p) p (COLOR_MAP_get p))),
        area_summary := profiles.map (fun p =>
          ⟨p, round2 (success_area_sum oracle p points.length / 1000000)⟩),
        errors := profiles.flatMap (fun p =>
          ((List.range points.length).filter
            (fun idx => is_fail (point_outcome (oracle p idx)))).map (fun idx => (p, idx))),
        sleeps := (profiles.map (fun p =>
          ((List.range points.length).filter
            (fun idx => is_succ (point_outcome (oracle p idx)))).length)).sum,
        requests := profiles.length * points.length } := by
  rw [generate_isochrones, generate_isochrones_go_eq]
  simp

theorem round2_zero : round2 0 = 0 := by
  unfold round2 round_half_even rat_floor
  norm_num

/-- C2: the area summary of the run has exactly one entry per configured profile,
in configured order, and each entry value is the plain sum (no
deduplication) of the areas of the successfully returned features of that profile
(a missing area counting as 0), divided by 1,000,000 and rounded to two
decimals. -/
theorem c2_area_summary_is_rounded_plain_sum (oracle : Oracle)
    (profiles : List String) (points : List Point) :
    (generate_isochrones oracle profiles points).area_summary
      = profiles.map (fun p =>
          ⟨p, round2 (success_area_sum oracle p points.length / 1000000)⟩) := by
  rw [generate_isochrones_eq]

/-- C10: the displayed summary has exactly one entry per configured profile,
in configured order, and a profile for which every per-point request failed
is not omitted: its entry reports a total of 0. -/
theorem c10_all_failed_profile_reports_zero (oracle : Oracle)
    (profiles : List String) (points : List Point) (p : String)
    (hfail : ∀ idx, idx < points.length → point_outcome (oracle p idx) = .failure) :
    (display_summary (generate_isochrones oracle profiles points)).map Prod.fst
        = profiles ∧
    ∀ j : ℕ, profiles[j]? = some p →
      (display_summary (generate_isochrones oracle profiles points))[j]?
        = some (p, (0 : ℚ)) := by
  have hsum : success_area_sum oracle p points.length = 0 := by
    apply List.sum_eq_zero
    intro x hx
    rcases List.mem_map.mp hx with ⟨idx, hidx, hval⟩
    rw [← hval]
    unfold point_area
    rw [hfail idx (List.mem_range.mp hidx)]
  constructor
  · rw [display_summary, generate_isochrones_eq]
    simp [Function.comp_def]
  · intro j hj
    rw [display_summary, generate_isochrones_eq]
    simp only [List.map_map]
    rw [List.getElem?_map, hj]
    simp [hsum, round2_zero]

/-- Witness for C10: two profiles over two sample points where every request
for `"foot-walking"` exhausts its retries; the summary still lists both
profiles in order and reports 0 for `"foot-walking"`. -/
theorem c10_all_failed_profile_reports_zero_witness :
    (display_summary (generate_isochrones (fun _ _ _ => AttemptResult.rateLimited)
        ["driving-car", "foot-walking"] [((0 : ℚ), (0 : ℚ)), (1, 1)])).map Prod.fst
      = ["driving-car", "foot-walking"] ∧
    ∀ j : ℕ, (["driving-car", "foot-walking"] : List String)[j]? = some "foot-walking" →
      (display_summary (generate_isochrones (fun _ _ _ => AttemptResult.rateLimited)
          ["driving-car", "foot-walking"] [((0 : ℚ), (0 : ℚ)), (1, 1)]))[j]?
        = some ("foot-walking", (0 : ℚ)) :=
  c10_all_failed_profile_reports_zero (fun _ _ _ => AttemptResult.rateLimited)
    ["driving-car", "foot-walking"] [((0 : ℚ), (0 : ℚ)), (1, 1)] "foot-walking"
    (fun _ _ => rfl)

/-- C6 amended: the fixed 2.5-time-unit pacing pause is taken once after each
point request that succeeds, and — because `time.sleep(2.5)` sits inside the
`try` block — not after a point whose request fails: the number of pacing
pauses in a run equals the number of successful point requests. -/
theorem c6_pacing_pause_only_after_success (oracle : Oracle)
    (profiles : List String) (points : List Point) :
    (generate_isochrones oracle profiles points).sleeps
      = (profiles.map (fun p =>
          ((List.range points.length).filter
            (fun idx => is_succ (point_outcome (oracle p idx)))).length)).sum := by
  rw [generate_isochrones_eq]

/-- C6 counterexample: one profile and one sample point whose request
exhausts its retries.  The point is processed — its request is dispatched and
its failure is handled and reported — yet zero pacing pauses are taken, where
the claim requires a pause after this point (one pause). -/
theorem c6_counterexample_no_pause_after_failure :
    (generate_isochrones (fun _ _ _ => AttemptResult.rateLimited) ["driving-car"]
        [((0 : ℚ), (0 : ℚ))]).sleeps = 0 ∧
    (generate_isochrones (fun _ _ _ => AttemptResult.rateLimited) ["driving-car"]
        [((0 : ℚ), (0 : ℚ))]).requests = 1 ∧
    (generate_isochrones (fun _ _ _ => AttemptResult.rateLimited) ["driving-car"]
        [((0 : ℚ), (0 : ℚ))]).errors = [("driving-car", 0)] ∧
    (0 : ℕ) ≠ 1 :=
  ⟨rfl, rfl, rfl, by decide⟩

/-- RangeSpec tag selected by the range-type radio widget. -/
inductive RangeType where
  | time
  | distance
  deriving DecidableEq

/-- The `converted_range` computed by the UI from the selected values: minute
values are converted to seconds (`r * 60` for each), metre values are passed
through unchanged. -/
def converted_range (rt : RangeType) (nilai_range : List ℕ) : List ℕ :=
  match rt with
  | .time => nilai_range.map (fun r => r * 60)
  | .distance => nilai_range

/-- C7 amended: the threshold shown in every rendered label is
`feature["properties"]["value"] // 60`, unconditionally — the integer
division by 60 is applied whether the RangeSpec of the run is time-based or
distance-based, since `generate_isochrones` never consults the range type. -/
theorem c7_label_threshold_always_divided_by_60 (oracle : Oracle)
    (profiles : List String) (points : List Point) :
    (generate_isochrones oracle profiles points).rendered
      = profiles.flatMap (fun p =>
          (List.range points.length).flatMap (fun idx =>
            match point_outcome (oracle p idx) with
            | .success fs => fs.map (fun f =>
                { profile := p, fill_color := COLOR_MAP_get p, waktu := f.value / 60,
                  area_m2 := feature_area f,
                  area_km2_label := round2 (feature_area f / 1000000) })
            | .failure => [])) := by
  rw [generate_isochrones_eq]
  rfl

/-- C7 counterexample: a distance-based run (`converted_range` passes the
1000 m threshold through unchanged) whose service response carries threshold
value 1000; the rendered label shows `1000 // 60 = 16`, not the undivided
1000 that the claim requires for a distance-based RangeSpec. -/
theorem c7_counterexample_distance_value_still_divided :
    converted_range RangeType.distance [1000] = [1000] ∧
    ((generate_isochrones
        (fun _ _ _ => AttemptResult.ok [⟨1000, some 2500000⟩]) ["driving-car"]
        [((0 : ℚ), (0 : ℚ))]).rendered).map (fun r => r.waktu) = [16] ∧
    (16 : ℕ) ≠ 1000 :=
  ⟨rfl, rfl, by decide⟩

theorem mem_errors_iff (oracle : Oracle) (profiles : List String)
    (points : List Point) (p : String) (idx : ℕ) :
    (p, idx) ∈ (generate_isochrones oracle profiles points).errors ↔
      p ∈ profiles ∧ idx < points.length ∧
        is_fail (point_outcome (oracle p idx)) = true := by
  rw [generate_isochrones_eq]
  simp only [List.mem_flatMap, List.mem_map, List.mem_filter, List.mem_range,
    Prod.mk.injEq]
  constructor
  · rintro ⟨q, hq, k, ⟨⟨hk, hfk⟩, hqp, hki⟩⟩
    subst hqp
    subst hki
    exact ⟨hq, hk, hfk⟩
  · rintro ⟨hp, hk, hf⟩
    exact ⟨p, hp, idx, ⟨⟨hk, hf⟩, rfl, rfl⟩⟩

/-- C1: partial-failure isolation.  If two service behaviours agree except
that the second fails (for example by retry exhaustion) at one
(profile, point) pair, then in the second run processing continues — every
configured profile still receives its summary entry, in order; the failure is
reported for the failing point, and any other (profile, point) pair reports a
failure in the second run exactly when it does in the first; the rendered
features of both runs decompose point by point, with each other point keeping its
recorded features and area contribution unchanged; and every profile other
than the failing one keeps an unchanged summary entry. -/
theorem c1_partial_failure_isolation (o1 o2 : Oracle)
    (profiles : List String) (points : List Point) (p0 : String) (i0 : ℕ)
    (hagree : ∀ p idx, ¬(p = p0 ∧ idx = i0) → o1 p idx = o2 p idx)
    (hfail : point_outcome (o2 p0 i0) = .failure) :
    ((generate_isochrones o2 profiles points).area_summary.map Summary.profile
        = profiles) ∧
    (p0 ∈ profiles → i0 < points.length →
      (p0, i0) ∈ (generate_isochrones o2 profiles points).errors) ∧
    (∀ p idx, ¬(p = p0 ∧ idx = i0) →
      ((p, idx) ∈ (generate_isochrones o2 profiles points).errors
        ↔ (p, idx) ∈ (generate_isochrones o1 profiles points).errors)) ∧
    ((generate_isochrones o2 profiles points).rendered
      = profiles.flatMap (fun p => (List.range points.length).flatMap
          (point_records (o2 p) p (COLOR_MAP_get p)))) ∧
    ((generate_isochrones o1 profiles points).rendered
      = profiles.flatMap (fun p => (List.range points.length).flatMap
          (point_records (o1 p) p (COLOR_MAP_get p)))) ∧
    (∀ p idx, ¬(p = p0 ∧ idx = i0) →
      point_records (o2 p) p (COLOR_MAP_get p) idx
          = point_records (o1 p) p (COLOR_MAP_get p) idx ∧
      point_area (o2 p) idx = point_area (o1 p) idx) ∧
    (∀ (j : ℕ) (p : String), profiles[j]? = some p → p ≠ p0 →
      (generate_isochrones o2 profiles points).area_summary[j]?
        = (generate_isochrones o1 profiles points).area_summary[j]?) := by
  refine ⟨?_, ?_, ?_, ?_, ?_, ?_, ?_⟩
  · rw [generate_isochrones_eq]
    simp [Function.comp_def]
  · intro hp hi
    rw [mem_errors_iff]
    rw [hfail]
    exact ⟨hp, hi, rfl⟩
  · intro p idx h
    rw [mem_errors_iff, mem_errors_iff]
    rw [hagree p idx h]
  · rw [generate_isochrones_eq]
  · rw [generate_isochrones_eq]
  · intro p idx h
    rw [point_records, point_area, ← hagree p idx h]
    exact ⟨rfl, rfl⟩
  · intro j p hj hp
    have harea : success_area_sum o2 p points.length
        = success_area_sum o1 p points.length := by
      unfold success_area_sum
      congr 1
      apply List.map_congr_left
      intro idx _
      rw [point_area, point_area, ← hagree p idx (fun hc => hp hc.1)]
    rw [generate_isochrones_eq, generate_isochrones_eq]
    simp [List.getElem?_map, hj, harea]

/-- Service behaviour in which every request succeeds at once with one
5-minute feature of area 1,000,000 m². -/
def oracle_all_ok : Oracle := fun _ _ _ => .ok [⟨300, some 1000000⟩]

/-- The same behaviour except that the request for profile `"driving-car"`
at point index 1 is rate-limited on every attempt, so that it fails by retry
exhaustion. -/
def oracle_one_failure : Oracle := fun p idx _ =>
  if p = "driving-car" ∧ idx = 1 then .rateLimited else .ok [⟨300, some 1000000⟩]

/-- Witness for C1: two profiles over three sample points, where the second
behaviour fails (by retry exhaustion) exactly at `("driving-car", 1)`. -/
theorem c1_partial_failure_isolation_witness :
    ((generate_isochrones oracle_one_failure ["driving-car", "foot-walking"]
        [((0 : ℚ), (0 : ℚ)), (1, 1), (2, 2)]).area_summary.map Summary.profile
        = ["driving-car", "foot-walking"]) ∧
    ("driving-car" ∈ ["driving-car", "foot-walking"] →
      1 < ([((0 : ℚ), (0 : ℚ)), (1, 1), (2, 2)] : List Point).length →
      ("driving-car", 1) ∈ (generate_isochrones oracle_one_failure
        ["driving-car", "foot-walking"] [((0 : ℚ), (0 : ℚ)), (1, 1), (2, 2)]).errors) ∧
    (∀ p idx, ¬(p = "driving-car" ∧ idx = 1) →
      ((p, idx) ∈ (generate_isochrones oracle_one_failure
          ["driving-car", "foot-walking"] [((0 : ℚ), (0 : ℚ)), (1, 1), (2, 2)]).errors
        ↔ (p, idx) ∈ (generate_isochrones oracle_all_ok
          ["driving-car", "foot-walking"] [((0 : ℚ), (0 : ℚ)), (1, 1), (2, 2)]).errors)) ∧
    ((generate_isochrones oracle_one_failure ["driving-car", "foot-walking"]
        [((0 : ℚ), (0 : ℚ)), (1, 1), (2, 2)]).rendered
      = (["driving-car", "foot-walking"] : List String).flatMap (fun p =>
          (List.range ([((0 : ℚ), (0 : ℚ)), (1, 1), (2, 2)] : List Point).length).flatMap
            (point_records (oracle_one_failure p) p (COLOR_MAP_get p)))) ∧
    ((generate_isochrones oracle_all_ok ["driving-car", "foot-walking"]
        [((0 : ℚ), (0 : ℚ)), (1, 1), (2, 2)]).rendered
      = (["driving-car", "foot-walking"] : List String).flatMap (fun p =>
          (List.range ([((0 : ℚ), (0 : ℚ)), (1, 1), (2, 2)] : List Point).length).flatMap
            (point_records (oracle_all_ok p) p (COLOR_MAP_get p)))) ∧
    (∀ p idx, ¬(p = "driving-car" ∧ idx = 1) →
      point_records (oracle_one_failure p) p (COLOR_MAP_get p) idx
          = point_records (oracle_all_ok p) p (COLOR_MAP_get p) idx ∧
      point_area (oracle_one_failure p) idx = point_area (oracle_all_ok p) idx) ∧
    (∀ (j : ℕ) (p : String),
      (["driving-car", "foot-walking"] : List String)[j]? = some p → p ≠ "driving-car" →
      (generate_isochrones oracle_one_failure ["driving-car", "foot-walking"]
          [((0 : ℚ), (0 : ℚ)), (1, 1), (2, 2)]).area_summary[j]?
        = (generate_isochrones oracle_all_ok ["driving-car", "foot-walking"]
          [((0 : ℚ), (0 : ℚ)), (1, 1), (2, 2)]).area_summary[j]?) :=
  c1_partial_failure_isolation oracle_all_ok oracle_one_failure
    ["driving-car", "foot-walking"] [((0 : ℚ), (0 : ℚ)), (1, 1), (2, 2)] "driving-car" 1
    (fun p idx h => by
      funext a
      simp [oracle_all_ok, oracle_one_failure, h])
    (by decide)

/-- Input mode chosen by the input-type radio widget. -/
inductive InputType where
  | fileKML
  | coordinate
  deriving DecidableEq

/-- The unpacking `lon, lat = map(float, coordinate_input.split(","))`,
over the comma-separated fields of the coordinate text, each field either
parsing as a number or not: it succeeds exactly for two numeric fields and
raises (into the surrounding `except`) otherwise. -/
def parse_lon_lat : List (Option ℚ) → Option (ℚ × ℚ)
  | [some lon, some lat] => some (lon, lat)
  | _ => none

/-- The `for profile in profile_list` loop of the coordinate branch: one
request per profile through the Retry Executor; the first failing request
raises out of the loop into the catch-all `except` of the branch, aborting
the remaining profiles.  Returns the number of requests dispatched and
whether an exception was raised (showing the branch error message). -/
def single_point_profiles (oracle : String → ℕ → AttemptResult (List Feature)) :
    List String → ℕ → ℕ × Bool
  | [], req => (req, false)
  | p :: rest, req =>
    match point_outcome (oracle p) with
    | .success _ => single_point_profiles oracle rest (req + 1)
    | .failure => (req + 1, true)

/-- The whole `try` block of the coordinate branch: parse the coordinate
text — a text that does not parse as two numeric values raises before any
request is built — then run the per-profile request loop. -/
def single_point_branch (fields : List (Option ℚ))
    (oracle : String → ℕ → AttemptResult (List Feature))
    (profiles : List String) : ℕ × Bool :=
  match parse_lon_lat fields with
  | none => (0, true)
  | some _ => single_point_profiles oracle profiles 0

/-- Observable outcome of one run of the top-level driver block: requests
dispatched, whether the coordinate branch showed its catch-all error message,
the `load_kml` error message if one was shown, the region-mode run results
when reached, and the exception escaping the driver, if any. -/
structure DriverResult where
  requests : ℕ
  branch_errored : Bool
  load_error : Option String
  run : Option RunState
  uncaught : Option String
  deriving DecidableEq

/-- The top-level driver (the body of `if st.session_state.run_analysis`).
In KML mode the uploaded file is written to `temp_uploaded.kml`, assigning
`path_kml`; in coordinate mode the single-point analysis runs inside its
`try`/`except` and `path_kml` is never assigned.  The driver then
unconditionally constructs an `IsochroneAnalyzer` on `path_kml` and, when
`load_kml()` returns `True`, runs `generate_isochrones` and the reporting
calls — so in coordinate mode the reference to the unassigned `path_kml`
raises a `NameError` that no handler catches. -/
def driver (input : InputType) (fields : List (Option ℚ)) (geoms : List Geometry)
    (pointOracle : String → ℕ → AttemptResult (List Feature))
    (regionOracle : Oracle) (profiles : List String) (sampling : ℕ) :
    DriverResult :=
  let branch : ℕ × Bool :=
    match input with
    | .fileKML => (0, false)
    | .coordinate => single_point_branch fields pointOracle profiles
  let path_kml : Option String :=
    match input with
    | .fileKML => some "temp_uploaded.kml"
    | .coordinate => none
  match path_kml with
  | none =>
      { requests := branch.1, branch_errored := branch.2, load_error := none,
        run := none, uncaught := some "NameError: path_kml is not defined" }
  | some _ =>
      match load_kml geoms sampling with
      | .error msg =>
          { requests := branch.1, branch_errored := branch.2,
            load_error := some msg, run := none, uncaught := none }
      | .ok pts =>
          let st := generate_isochrones regionOracle profiles pts
          { requests := branch.1 + st.requests, branch_errored := branch.2,
            load_error := none, run := some st, uncaught := none }

/-- C8: for a run whose boundary file parses to an empty geometry, `load_kml`
signals the empty-KML failure, its error message is shown to the user, and
zero isochrone requests are dispatched — the driver never reaches
`generate_isochrones`. -/
theorem c8_empty_region_dispatches_no_requests (fields : List (Option ℚ))
    (pointOracle : String → ℕ → AttemptResult (List Feature))
    (regionOracle : Oracle) (profiles : List String) (sampling : ℕ) :
    driver .fileKML fields [] pointOracle regionOracle profiles sampling
      = { requests := 0, branch_errored := false,
          load_error := some "File KML kosong atau tidak valid.",
          run := none, uncaught := none } := rfl

/-- C9 is violated by the code: in coordinate mode the trailing
region-analysis block executes unconditionally with `path_kml` never
assigned, so a `NameError` escapes the driver — both on a well-formed
coordinate ("106.8,-6.2", one request dispatched and succeeding, no branch
error) and on a malformed coordinate (branch error shown, zero requests,
then the same uncaught `NameError`). -/
theorem c9_coordinate_mode_raises_uncaught_nameerror :
    (driver .coordinate [some (534 / 5 : ℚ), some (-31 / 5 : ℚ)] []
        (fun _ _ => .ok [⟨300, some 2500000⟩]) (fun _ _ _ => .ok [])
        ["driving-car"] 20).uncaught
      = some "NameError: path_kml is not defined" ∧
    (driver .coordinate [some (534 / 5 : ℚ), some (-31 / 5 : ℚ)] []
        (fun _ _ => .ok [⟨300, some 2500000⟩]) (fun _ _ _ => .ok [])
        ["driving-car"] 20).branch_errored = false ∧
    (driver .coordinate [some (534 / 5 : ℚ), some (-31 / 5 : ℚ)] []
        (fun _ _ => .ok [⟨300, some 2500000⟩]) (fun _ _ _ => .ok [])
        ["driving-car"] 20).requests = 1 ∧
    (driver .coordinate [none] []
        (fun _ _ => .ok [⟨300, some 2500000⟩]) (fun _ _ _ => .ok [])
        ["driving-car"] 20).requests = 0 ∧
    (driver .coordinate [none] []
        (fun _ _ => .ok [⟨300, some 2500000⟩]) (fun _ _ _ => .ok [])
        ["driving-car"] 20).branch_errored = true ∧
    (driver .coordinate [none] []
        (fun _ _ => .ok [⟨300, some 2500000⟩]) (fun _ _ _ => .ok [])
        ["driving-car"] 20).uncaught
      = some "NameError: path_kml is not defined" :=
  ⟨rfl, rfl, rfl, rfl, rfl, rfl⟩
